import Mathlib

/-!
Verification of the hot-reloading template store of docs.rs
(src/web/page/templates.rs), shallowly embedded in Lean 4.

The embedding models:
  * serde_json values as an inductive JsonValue (numbers as exact
    rationals; the float operations exercised by the proved statements
    are exact or correctly rounded, noted at each use);
  * Rust panics (unwrap / expect / debug_assert failures) as a distinct
    RunResult.panic outcome, separate from returning a Tera error;
  * the Tera catalog as a structure holding its templates, registered
    functions and registered filters;
  * the fallible environment (database queries, the filesystem scan,
    per-file template compilation, the connection pool) as explicit
    Except-valued parameters, so every code path of the Rust source is a
    path of the Lean definitions;
  * the ArcSwap store and the notify debounced watcher, which live in
    external crates, as small operational models derived from the spec's
    Store contract and Change Watcher state machine.
-/

/-- A serde_json::Value. Numbers are modelled as exact rationals. -/
inductive JsonValue
  | null
  | bool (b : Bool)
  | num (q : ℚ)
  | str (s : String)
  | arr (elems : List JsonValue)
  | obj (fields : List (String × JsonValue))

/-- Value::as_str: Some for strings, None otherwise. -/
def JsonValue.asStr : JsonValue → Option String
  | .str s => some s
  | _ => none

/-- Value::as_f64: Some for numbers, None otherwise. -/
def JsonValue.asF64 : JsonValue → Option ℚ
  | .num q => some q
  | _ => none

/-- Outcome of running one Rust filter or function call: either the call
panicked (unwrap, expect or a failed debug_assert), or it returned a
TeraResult, i.e. Except of an error message or a value. -/
inductive RunResult
  | panic
  | ret (r : Except String JsonValue)

/-- HashMap::get on the args map of a filter, modelled on an
association list (first match wins, as in a map with distinct keys). -/
def lookupArg (args : List (String × JsonValue)) (k : String) : Option JsonValue :=
  (args.find? (fun p => p.1 == k)).map Prod.snd

/-- The Unicode White_Space property, as used by Rust's
char::is_whitespace (and hence str::trim_start). -/
def rustIsWhitespace (c : Char) : Bool :=
  c = ' ' || c = '\t' || c = '\n' ||
  c = Char.ofNat 0x0b || c = Char.ofNat 0x0c || c = '\r' ||
  c = Char.ofNat 0x85 || c = Char.ofNat 0xa0 ||
  c = Char.ofNat 0x1680 ||
  (0x2000 ≤ c.toNat && c.toNat ≤ 0x200a) ||
  c = Char.ofNat 0x2028 || c = Char.ofNat 0x2029 ||
  c = Char.ofNat 0x202f || c = Char.ofNat 0x205f ||
  c = Char.ofNat 0x3000

/-- Rust str::trim_start: drop leading whitespace characters. -/
def rustTrimStart (s : String) : String :=
  ⟨s.data.dropWhile rustIsWhitespace⟩

/-- Split a character sequence at every newline; the newline is not
part of any segment. A trailing newline yields a final empty segment. -/
def splitNl : List Char → List (List Char)
  | [] => [[]]
  | c :: rest =>
      if c = '\n' then [] :: splitNl rest
      else
        match splitNl rest with
        | [] => [[c]]
        | l :: ls => (c :: l) :: ls

/-- Strip one trailing carriage return, as Rust's line iterator does
for \r\n terminators. -/
def stripCr (l : List Char) : List Char :=
  if l.getLast? = some '\r' then l.dropLast else l

/-- Rust str::lines: split on newlines, drop the final empty segment
(so a trailing newline produces no extra line and the empty string has
no lines at all), and strip a trailing carriage return from each
line. -/
def rustLines (s : String) : List String :=
  let segs := splitNl s.data
  let segs := if segs.getLast? = some [] then segs.dropLast else segs
  segs.map (fun l => ⟨stripCr l⟩)

/-- Vec::join with a newline separator. -/
def joinNl : List String → String
  | [] => ""
  | [l] => l
  | l :: rest => l ++ "\n" ++ joinNl rest

/-- The dedent filter: value.as_str().expect("dedent takes a string")
panics on a non-string input; otherwise every line is trimmed of leading
whitespace and the lines are rejoined with newlines. -/
def dedent (value : JsonValue) (args : List (String × JsonValue)) : RunResult :=
  match args, value.asStr with
  | _, none => .panic
  | _, some s =>
      .ret (.ok (.str (joinNl ((rustLines s).map rustTrimStart))))

/-- The TIMES unit table of the timeformat filter. -/
def TIMES : List String := ["seconds", "minutes", "hours"]

/-- The unit-scaling loop of timeformat: for each remaining unit, if
value / 60 is at least 1, divide and adopt that unit, else break. The
source iterates over TIMES[1..] starting from chosen_time = TIMES[0].
On the rationals this is exact; for f64 the comparison v / 60.0 >= 1.0
agrees with 60 <= v on every double, so the branch structure is
faithful. -/
def scaleLoop : List String → ℚ → String → ℚ × String
  | [], v, chosen => (v, chosen)
  | t :: rest, v, chosen =>
      if 1 ≤ v / 60 then scaleLoop rest (v / 60) t else (v, chosen)

/-- Rust's format with one decimal place followed by the source's
truncation of a trailing ".0". Rounding is to the nearest tenth
(round half up; the source's f64 formatting rounds half to even, which
differs only at exact midpoints, not reached by any statement proved
below). -/
def fmtOneDecimal (q : ℚ) : String :=
  let n : ℤ := ⌊q * 10 + 1 / 2⌋
  let m := n.natAbs
  let sign := if n < 0 then "-" else ""
  let ip := m / 10
  let fr := m % 10
  if fr = 0 then sign ++ toString ip
  else sign ++ toString ip ++ "." ++ toString fr

/-- The non-relative branch of timeformat on an already extracted
number: run the unit-scaling loop from TIMES[0] over TIMES[1..], then
format to one decimal place with the trailing ".0" elision. -/
def timeformatNum (v : ℚ) : String :=
  let p := scaleLoop (TIMES.drop 1) v (TIMES.headD "")
  fmtOneDecimal p.1 ++ " " ++ p.2

/-- The timeformat filter. In relative mode the input string is parsed
as an RFC 3339 timestamp and rendered by duration_to_str; both live
outside this file's source and are abstracted into the relativeFmt
parameter, with None standing for a parse failure (an unwrap panic).
A non-string input in relative mode, or a non-numeric input otherwise,
panics (value.as_str().unwrap() / value.as_f64().unwrap()). -/
def timeformat (relativeFmt : String → Option String)
    (value : JsonValue) (args : List (String × JsonValue)) : RunResult :=
  match lookupArg args "relative" with
  | some (JsonValue.bool true) =>
      match value.asStr with
      | none => .panic
      | some s =>
          match relativeFmt s with
          | none => .panic
          | some fmtd => .ret (.ok (.str fmtd))
  | _ =>
      match value.asF64 with
      | none => .panic
      | some v0 => .ret (.ok (.str (timeformatNum v0)))

/-- The ReturnValue registered function: a name and the pre-defined
value captured when the catalog was built. -/
structure ReturnValue where
  name : String
  value : JsonValue

/-- ReturnValue::call. The source asserts args.is_empty() with
debug_assert, which panics when debug assertions are compiled in and
the argument map is not empty, and is compiled out in release builds;
the build profile is the debugAssertions parameter. Otherwise the call
returns Ok of a clone of the captured value, ignoring the arguments. -/
def ReturnValue.call (debugAssertions : Bool) (f : ReturnValue)
    (args : List (String × JsonValue)) : RunResult :=
  if debugAssertions && !args.isEmpty then .panic
  else .ret (.ok f.value)

/-- The Tera catalog: compiled templates by logical name, registered
functions (all of them ReturnValue instances in this source), and the
names of the registered filters. -/
structure Tera where
  templates : List (String × String)
  functions : List (String × ReturnValue)
  filters : List String

/-- Tera::default(): the empty catalog. -/
def Tera.default : Tera := ⟨[], [], []⟩

/-- Tera::register_function, used through ReturnValue::add_function_to:
insert the function into the catalog's function map (newest insertion
wins on lookup, as in a hash map insert). -/
def ReturnValue.add_function_to (t : Tera) (name : String) (value : JsonValue) : Tera :=
  { t with functions := (name, ⟨name, value⟩) :: t.functions }

/-- Tera::register_filter: record the filter under its name. -/
def Tera.register_filter (t : Tera) (name : String) : Tera :=
  { t with filters := name :: t.filters }

/-- Look a registered function up by name. -/
def Tera.getFunction (t : Tera) (n : String) : Option ReturnValue :=
  (t.functions.find? (fun p => p.1 == n)).map Prod.snd

/-- Modelled from the spec: Tera::add_template_files lives in the tera
crate; per the spec every scanned file is compiled into a template and
any compile failure fails the whole call with the offending error, so
the model folds a per-file compile function over the scanned list and
propagates the first failure. -/
def add_template_files (compile : String → Except String String)
    (t : Tera) : List (String × Option String) → Except String Tera
  | [] => .ok t
  | (path, name) :: rest =>
      match compile path with
      | .error e => .error e
      | .ok body =>
          add_template_files compile
            { t with templates := (name.getD path, body) :: t.templates } rest

/-- The result of row.get_opt::<_, Value>("value") on the first row of
the config query: None if the column is absent, Some (error) if the
stored value does not convert, Some (ok v) otherwise. -/
abbrev ConfigRow := Option (Except String JsonValue)

/-- The string the source's nested if-lets extract from the first row:
Some s exactly when get_opt returned Some (Ok v) and v.as_str() was
Some s. -/
def rowStringValue : ConfigRow → Option String
  | some (.ok v) => v.asStr
  | _ => none

/-- load_rustc_resource_suffix: query the config table for
rustc_version; propagate a query error; fail on an empty result set;
fail unless the first row holds a JSON string; otherwise hand the
string to parse_rustc_version (a crate::utils function outside this
source file, abstracted as the parse parameter) and propagate its
result. -/
def load_rustc_resource_suffix (parse : String → Except String String)
    (queryRes : Except String (List ConfigRow)) : Except String String :=
  match queryRes with
  | .error e => .error e
  | .ok rows =>
      match rows with
      | [] => .error "missing rustc version"
      | row :: _ =>
          match rowStringValue row with
          | some s => parse s
          | none => .error "failed to parse the rustc version"

/-- Result::unwrap_or_else as used on the resolver result: the value on
success, and after logging the error, the "???" placeholder on
failure. -/
def unwrapOrQQQ : Except String String → String
  | .ok s => s
  | .error _ => "???"

/-- load_templates: scan the template directory (the scanRes parameter
is the result of find_templates_in_filesystem), add every scanned file
to a fresh catalog, register the global_alert value (globalAlertRes is
the serde_json::to_value result on GLOBAL_ALERT, propagated with ?),
the docsrs_version constant and the rustc_resource_suffix constant
(falling back to "???" when the resolver fails), then register the
three filters. Every ? of the source is a propagated error here. -/
def load_templates (compile : String → Except String String)
    (scanRes : Except String (List (String × Option String)))
    (globalAlertRes : Except String JsonValue)
    (buildVersion : String)
    (parse : String → Except String String)
    (queryRes : Except String (List ConfigRow)) : Except String Tera :=
  match scanRes with
  | .error e => .error ("failed to search tera-templates for tera templates: " ++ e)
  | .ok files =>
      match add_template_files compile Tera.default files with
      | .error e => .error ("failed while loading tera templates in tera-templates: " ++ e)
      | .ok t0 =>
          match globalAlertRes with
          | .error e => .error e
          | .ok alertVal =>
              let t1 := ReturnValue.add_function_to t0 "global_alert" alertVal
              let t2 := ReturnValue.add_function_to t1 "docsrs_version" (.str buildVersion)
              let suffix := unwrapOrQQQ (load_rustc_resource_suffix parse queryRes)
              let t3 := ReturnValue.add_function_to t2 "rustc_resource_suffix" (.str suffix)
              let t4 := Tera.register_filter t3 "timeformat"
              let t5 := Tera.register_filter t4 "dbg"
              let t6 := Tera.register_filter t5 "dedent"
              .ok t6

/-- Modelled from the spec: the ArcSwap cell of TemplateData lives in
the arc_swap crate; the spec's Store contract is an atomically
replaceable reference. The generation number stands for pointer
identity: two StoreRef values with the same generation are the same
Arc. -/
structure StoreRef where
  gen : Nat
  cat : Tera

/-- ArcSwap::swap with a freshly allocated Arc: the cell now holds a
new reference (new generation) to the new catalog. -/
def swapStore (s : StoreRef) (c : Tera) : StoreRef :=
  { gen := s.gen + 1, cat := c }

/-- A database connection handle; its identity is irrelevant to the
control flow modelled here. -/
abbrev Conn := Unit

/-- The reload closure inside start_template_reloading: get a
connection from the pool (propagating failure with ?), rebuild the
catalog (propagating failure with ?), and only then swap the new
catalog into the store. Returns the store cell after the attempt
together with the Result the closure returns. -/
def reload (store : StoreRef) (poolRes : Except String Conn)
    (loadRes : Conn → Except String Tera) : StoreRef × Except String Unit :=
  match poolRes with
  | .error e => (store, .error e)
  | .ok conn =>
      match loadRes conn with
      | .error e => (store, .error e)
      | .ok t => (swapStore store t, .ok ())

/-- The watcher thread's receive loop: each received debounce
notification triggers one reload attempt (its outcome is the
corresponding entry of msgs); a failed attempt is logged with
log::error and the loop continues; the loop ends, without panicking,
when the channel closes (the msgs list is exhausted). Returns the
final store cell and the error log, in order. -/
def reloadLoop (store : StoreRef) :
    List (Except String Tera) → StoreRef × List String
  | [] => (store, [])
  | .ok t :: rest => reloadLoop (swapStore store t) rest
  | .error e :: rest =>
      let r := reloadLoop store rest
      (r.1, ("failed to reload templates: " ++ e) :: r.2)

/-- What becomes of the process after start_template_reloading:
either a panic on the calling thread, or a running background loop
with its final store and log. -/
inductive StartOutcome
  | panicked
  | running (final : StoreRef) (logs : List String)

/-- start_template_reloading: watcher(tx, 2s).unwrap() panics when the
watcher cannot be created; watcher.watch("tera-templates").unwrap()
panics when the watch cannot be established; only then is the receive
loop spawned. watcherRes and watchRes are the Results of those two
external calls, msgs the reload outcomes of the received events. -/
def start_template_reloading (watcherRes : Except String Unit)
    (watchRes : Except String Unit) (store : StoreRef)
    (msgs : List (Except String Tera)) : StartOutcome :=
  match watcherRes with
  | .error _ => .panicked
  | .ok _ =>
      match watchRes with
      | .error _ => .panicked
      | .ok _ =>
          let r := reloadLoop store msgs
          .running r.1 r.2

/-- Modelled from the spec: the Store's reader-facing protocol. The
system state is the store cell (as held by the ArcSwap) together with
the snapshot each in-flight render captured with current(); renders
keep the snapshot for their whole duration. -/
structure SysState where
  active : StoreRef
  snaps : List (Nat × StoreRef)

/-- Modelled from the spec: the two operations that touch the store.
load r is render r calling current(); swap c is the watcher thread
installing a rebuilt catalog. -/
inductive StoreEvent
  | load (r : Nat)
  | swap (c : Tera)

/-- Modelled from the spec: one atomic step of the store protocol.
current() hands the reader the active reference as its snapshot and
touches nothing else; swap replaces the active reference and touches
no snapshot. -/
def storeStep (s : SysState) : StoreEvent → SysState
  | .load r => { s with snaps := (r, s.active) :: s.snaps }
  | .swap c => { s with active := swapStore s.active c }

/-- Run a sequence of interleaved store events. -/
def storeRun (s : SysState) (es : List StoreEvent) : SysState :=
  es.foldl storeStep s

/-- The reference a given render holds: its most recent current()
snapshot. -/
def snapLookup (r : Nat) (snaps : List (Nat × StoreRef)) : Option StoreRef :=
  (snaps.find? (fun p => p.1 == r)).map Prod.snd

/-- Every store reference that is active at some point of a run: the
history of complete catalogs a reader could legitimately observe. -/
def histList : SysState → List StoreEvent → List StoreRef
  | s, [] => [s.active]
  | s, e :: es => s.active :: histList (storeStep s e) es

/-- Modelled from the spec: the debounce of the notify watcher created
with watcher(tx, Duration::from_secs(2)). The timer re-arms on every
filesystem event, measured from the most recent event; it fires once
per quiet period of at least the window w. Given the event timestamps
in order, an event fires iff the gap to the next event reaches the
window, and the last event always eventually fires. -/
def debounceFires (w : Nat) : List Nat → Nat
  | [] => 0
  | [_] => 1
  | t1 :: t2 :: ts => (if w ≤ t2 - t1 then 1 else 0) + debounceFires w (t2 :: ts)

lemma scaleLoop_unit (v : ℚ) :
    (v < 60 → scaleLoop (TIMES.drop 1) v (TIMES.headD "") = (v, "seconds")) ∧
    (60 ≤ v → v < 3600 → scaleLoop (TIMES.drop 1) v (TIMES.headD "") = (v / 60, "minutes")) ∧
    (3600 ≤ v → scaleLoop (TIMES.drop 1) v (TIMES.headD "") = (v / 60 / 60, "hours")) := by
  have h60 : ((1:ℚ) ≤ v / 60) ↔ (60 ≤ v) := by
    rw [le_div_iff₀ (by norm_num : (0:ℚ) < 60), one_mul]
  have h3600 : ((1:ℚ) ≤ v / 60 / 60) ↔ (3600 ≤ v) := by
    rw [div_div, le_div_iff₀ (by norm_num : (0:ℚ) < 60 * 60), one_mul]
    norm_num
  simp only [TIMES, List.drop, List.headD, scaleLoop]
  refine ⟨fun hv => ?_, fun hv1 hv2 => ?_, fun hv => ?_⟩
  · rw [if_neg (fun hh => absurd (h60.mp hh) (by linarith))]
  · rw [if_pos (h60.mpr hv1), if_neg (fun hh => absurd (h3600.mp hh) (by linarith))]
  · rw [if_pos (h60.mpr (by linarith)), if_pos (h3600.mpr hv)]

lemma timeformatNum_45 : timeformatNum 45 = "45 seconds" := by
  have h := (scaleLoop_unit 45).1 (by norm_num)
  have hfl : (⌊(45:ℚ) * 10 + 1/2⌋ : ℤ) = 450 := by norm_num
  simp only [timeformatNum, h, fmtOneDecimal, hfl]
  decide

lemma timeformatNum_125 : timeformatNum 125 = "2.1 minutes" := by
  have h := (scaleLoop_unit 125).2.1 (by norm_num) (by norm_num)
  have h2 : (125 : ℚ) / 60 = 25 / 12 := by norm_num
  have hfl : (⌊(25/12:ℚ) * 10 + 1/2⌋ : ℤ) = 21 := by
    rw [Int.floor_eq_iff]
    norm_num
  simp only [timeformatNum, h, h2, fmtOneDecimal, hfl]
  decide

lemma timeformatNum_120 : timeformatNum 120 = "2 minutes" := by
  have h := (scaleLoop_unit 120).2.1 (by norm_num) (by norm_num)
  have h2 : (120 : ℚ) / 60 = 2 := by norm_num
  have hfl : (⌊(2:ℚ) * 10 + 1/2⌋ : ℤ) = 20 := by norm_num
  simp only [timeformatNum, h, h2, fmtOneDecimal, hfl]
  decide

lemma timeformatNum_7200 : timeformatNum 7200 = "2 hours" := by
  have h := (scaleLoop_unit 7200).2.2 (by norm_num)
  have h2 : (7200 : ℚ) / 60 / 60 = 2 := by norm_num
  have hfl : (⌊(2:ℚ) * 10 + 1/2⌋ : ℤ) = 20 := by norm_num
  simp only [timeformatNum, h, h2, fmtOneDecimal, hfl]
  decide

/-- C7: in non-relative mode the duration filter picks the largest unit
among seconds, minutes and hours whose scaled magnitude is at least 1,
formats to one decimal place eliding a trailing ".0", and in particular
maps 45 to "45 seconds", 125 to "2.1 minutes", 120 to "2 minutes" and
7200 to "2 hours". -/
theorem timeformat_duration_values (relativeFmt : String → Option String) :
    (timeformat relativeFmt (.num 45) [] = .ret (.ok (.str "45 seconds")) ∧
     timeformat relativeFmt (.num 125) [] = .ret (.ok (.str "2.1 minutes")) ∧
     timeformat relativeFmt (.num 120) [] = .ret (.ok (.str "2 minutes")) ∧
     timeformat relativeFmt (.num 7200) [] = .ret (.ok (.str "2 hours"))) ∧
    (∀ v : ℚ,
      (v < 60 → (scaleLoop (TIMES.drop 1) v (TIMES.headD "")).2 = "seconds" ∧
          (scaleLoop (TIMES.drop 1) v (TIMES.headD "")).1 = v) ∧
      (60 ≤ v → v < 3600 → (scaleLoop (TIMES.drop 1) v (TIMES.headD "")).2 = "minutes" ∧
          (scaleLoop (TIMES.drop 1) v (TIMES.headD "")).1 = v / 60) ∧
      (3600 ≤ v → (scaleLoop (TIMES.drop 1) v (TIMES.headD "")).2 = "hours" ∧
          (scaleLoop (TIMES.drop 1) v (TIMES.headD "")).1 = v / 60 / 60)) := by
  constructor
  · have e45 : timeformat relativeFmt (.num 45) [] = .ret (.ok (.str (timeformatNum 45))) := rfl
    have e125 : timeformat relativeFmt (.num 125) [] = .ret (.ok (.str (timeformatNum 125))) := rfl
    have e120 : timeformat relativeFmt (.num 120) [] = .ret (.ok (.str (timeformatNum 120))) := rfl
    have e7200 : timeformat relativeFmt (.num 7200) [] = .ret (.ok (.str (timeformatNum 7200))) := rfl
    exact ⟨by rw [e45, timeformatNum_45], by rw [e125, timeformatNum_125],
           by rw [e120, timeformatNum_120], by rw [e7200, timeformatNum_7200]⟩
  · intro v
    refine ⟨fun hv => ?_, fun hv1 hv2 => ?_, fun hv => ?_⟩
    · rw [(scaleLoop_unit v).1 hv]; exact ⟨rfl, rfl⟩
    · rw [(scaleLoop_unit v).2.1 hv1 hv2]; exact ⟨rfl, rfl⟩
    · rw [(scaleLoop_unit v).2.2 hv]; exact ⟨rfl, rfl⟩

/-- Witness for C7: the theorem applied at concrete inputs, with the
hypotheses of the unit-selection part discharged at 120. -/
theorem timeformat_duration_values_witness :
    timeformat (fun _ => none) (.num 45) [] = .ret (.ok (.str "45 seconds")) ∧
    ((60:ℚ) ≤ 120 ∧ (120:ℚ) < 3600) ∧
    (scaleLoop (TIMES.drop 1) (120:ℚ) (TIMES.headD "")).2 = "minutes" :=
  ⟨(timeformat_duration_values (fun _ => none)).1.1,
   ⟨by norm_num, by norm_num⟩,
   (((timeformat_duration_values (fun _ => none)).2 120).2.1 (by norm_num) (by norm_num)).1⟩

/-- C8: for every string input, the dedent filter strips leading
whitespace from each of its lines independently (the trim is mapped
line by line over the line list) and rejoins the lines with newlines;
a blank line is preserved blank (trimming the empty line yields the
empty line, so it survives the rejoin). In particular the input
"  line1\n    line2" yields "line1\nline2", and an interior blank line
survives unchanged. -/
theorem dedent_strips_leading_whitespace :
    (∀ (s : String) (args : List (String × JsonValue)),
       dedent (.str s) args =
         .ret (.ok (.str (joinNl ((rustLines s).map rustTrimStart))))) ∧
    (rustTrimStart "" = "") ∧
    (∀ (l : String) (ls : List String), l ∈ ls → rustTrimStart l ∈ ls.map rustTrimStart) ∧
    dedent (.str "  line1\n    line2") [] = .ret (.ok (.str "line1\nline2")) ∧
    dedent (.str "a\n\n   b") [] = .ret (.ok (.str "a\n\nb")) :=
  ⟨fun _ _ => rfl, rfl, fun _ _ hl => List.mem_map_of_mem _ hl, rfl, rfl⟩

/-- C5 counterexample: a non-numeric value handed to timeformat in
non-relative mode and a non-string value handed to dedent make the
filters panic (value.as_f64().unwrap() / value.as_str().expect(..))
instead of returning a FilterError as the claim states. -/
theorem filters_type_mismatch_cex :
    timeformat (fun _ => none) (.str "not a number") [] = RunResult.panic ∧
    dedent (.bool true) [] = RunResult.panic :=
  ⟨rfl, rfl⟩

/-- C5 amended: for every input value not of the expected type (a
non-numeric value to timeformat in non-relative mode, a non-string
value to dedent), the filter panics at render time; it does not return
a FilterError. -/
theorem filters_panic_on_type_mismatch (relativeFmt : String → Option String)
    (v : JsonValue) (args : List (String × JsonValue)) :
    (lookupArg args "relative" ≠ some (JsonValue.bool true) → v.asF64 = none →
       timeformat relativeFmt v args = RunResult.panic) ∧
    (v.asStr = none → dedent v args = RunResult.panic) := by
  constructor
  · intro hrel hnum
    unfold timeformat
    rcases hl : lookupArg args "relative" with _ | jv
    · rw [hnum]
    · rcases jv with _ | b | q | s | el | fl
      · rw [hnum]
      · cases b
        · rw [hnum]
        · exact absurd hl hrel
      · rw [hnum]
      · rw [hnum]
      · rw [hnum]
      · rw [hnum]
  · intro hstr
    unfold dedent
    rw [hstr]

/-- Witness for C5 amended: the theorem applied at concrete mismatched
inputs. -/
theorem filters_panic_on_type_mismatch_witness :
    (lookupArg [] "relative" ≠ some (JsonValue.bool true) ∧
       (JsonValue.arr []).asF64 = none ∧
       timeformat (fun _ => none) (JsonValue.arr []) [] = RunResult.panic) ∧
    ((JsonValue.num 3).asStr = none ∧
       dedent (JsonValue.num 3) [] = RunResult.panic) :=
  ⟨⟨by simp [lookupArg], rfl,
    (filters_panic_on_type_mismatch (fun _ => none) (JsonValue.arr []) []).1
      (by simp [lookupArg]) rfl⟩,
   ⟨rfl,
    (filters_panic_on_type_mismatch (fun _ => none) (JsonValue.num 3) []).2 rfl⟩⟩

/-- C10 counterexample: with debug assertions compiled in, calling a
registered constant function with a non-empty argument map panics on
debug_assert!(args.is_empty()) instead of returning Ok of the captured
value, so the claim does not hold for every argument map. -/
theorem return_value_call_args_cex :
    ReturnValue.call true ⟨"docsrs_version", JsonValue.str "0.6.0"⟩
      [("x", JsonValue.null)] = RunResult.panic :=
  rfl

/-- C10 amended: ReturnValue::call returns Ok of the fixed value
captured at build time, ignoring the arguments, whenever debug
assertions are disabled (release builds) or the argument map is empty;
with debug assertions enabled a non-empty argument map panics instead.
No call ever returns anything but the captured value, so repeated calls
within one catalog snapshot yield identical values; and the catalog
built by load_templates registers docsrs_version and global_alert as
such constants holding the build-time values. -/
theorem return_value_constant (dbgA : Bool) (f : ReturnValue)
    (args args2 : List (String × JsonValue)) :
    ((dbgA = false ∨ args = []) → ReturnValue.call dbgA f args = .ret (.ok f.value)) ∧
    (ReturnValue.call dbgA f args = RunResult.panic ∨
       ReturnValue.call dbgA f args = .ret (.ok f.value)) ∧
    (∀ r r2, ReturnValue.call dbgA f args = .ret r →
       ReturnValue.call dbgA f args2 = .ret r2 → r = r2) ∧
    (∀ compile files galert bv parse q t,
       load_templates compile (.ok files) (.ok galert) bv parse q = .ok t →
       t.getFunction "docsrs_version" = some ⟨"docsrs_version", .str bv⟩ ∧
       t.getFunction "global_alert" = some ⟨"global_alert", galert⟩) := by
  have hcase : ReturnValue.call dbgA f args = RunResult.panic ∨
      ReturnValue.call dbgA f args = .ret (.ok f.value) := by
    unfold ReturnValue.call
    by_cases h : (dbgA && !args.isEmpty) = true
    · rw [if_pos h]; exact Or.inl rfl
    · rw [if_neg h]; exact Or.inr rfl
  have hcase2 : ReturnValue.call dbgA f args2 = RunResult.panic ∨
      ReturnValue.call dbgA f args2 = .ret (.ok f.value) := by
    unfold ReturnValue.call
    by_cases h : (dbgA && !args2.isEmpty) = true
    · rw [if_pos h]; exact Or.inl rfl
    · rw [if_neg h]; exact Or.inr rfl
  refine ⟨?_, hcase, ?_, ?_⟩
  · rintro (h | h)
    · subst h; rfl
    · subst h; simp [ReturnValue.call]
  · intro r r2 h1 h2
    rcases hcase with hc | hc
    · rw [hc] at h1; exact absurd h1 (by simp)
    · rcases hcase2 with hc2 | hc2
      · rw [hc2] at h2; exact absurd h2 (by simp)
      · rw [hc] at h1
        rw [hc2] at h2
        cases h1
        cases h2
        rfl
  · intro compile files galert bv parse q t hload
    simp only [load_templates] at hload
    rcases hadd : add_template_files compile Tera.default files with e | t0
    · rw [hadd] at hload
      exact absurd hload (by simp)
    · rw [hadd] at hload
      simp only [Except.ok.injEq] at hload
      subst hload
      constructor <;> rfl

/-- Witness for C10 amended: the theorem applied with debug assertions
off at a non-empty argument map, and to a concrete successful catalog
build. -/
theorem return_value_constant_witness :
    ((false = false ∨ ([("x", JsonValue.null)] : List (String × JsonValue)) = []) ∧
      ReturnValue.call false ⟨"global_alert", JsonValue.null⟩ [("x", JsonValue.null)] =
        .ret (.ok JsonValue.null)) ∧
    (load_templates (fun _ => .ok "") (.ok []) (.ok JsonValue.null) "0.6.0"
        (fun s => .ok s) (.ok []) = .ok
        { templates := [], functions :=
            [("rustc_resource_suffix", ⟨"rustc_resource_suffix", .str "???"⟩),
             ("docsrs_version", ⟨"docsrs_version", .str "0.6.0"⟩),
             ("global_alert", ⟨"global_alert", JsonValue.null⟩)],
          filters := ["dedent", "dbg", "timeformat"] } ∧
      ({ templates := [], functions :=
            [("rustc_resource_suffix", ⟨"rustc_resource_suffix", .str "???"⟩),
             ("docsrs_version", ⟨"docsrs_version", .str "0.6.0"⟩),
             ("global_alert", ⟨"global_alert", JsonValue.null⟩)],
          filters := ["dedent", "dbg", "timeformat"] } : Tera).getFunction "docsrs_version" =
        some ⟨"docsrs_version", .str "0.6.0"⟩) :=
  ⟨⟨Or.inl rfl,
    (return_value_constant false ⟨"global_alert", JsonValue.null⟩ [("x", JsonValue.null)] []).1
      (Or.inl rfl)⟩,
   ⟨rfl,
    ((return_value_constant false ⟨"global_alert", JsonValue.null⟩ [] []).2.2.2
        (fun _ => .ok "") [] JsonValue.null "0.6.0" (fun s => .ok s) (.ok []) _ rfl).1⟩⟩

/-- C2: a reload attempt whose rebuild fails (connection acquisition or
template loading errors) leaves the store's active reference unchanged:
same reference (generation) and same catalog, and swap is never invoked
on that attempt. -/
theorem reload_failure_preserves_store (store : StoreRef)
    (poolRes : Except String Conn) (loadRes : Conn → Except String Tera)
    (h : (reload store poolRes loadRes).2.isOk = false) :
    (reload store poolRes loadRes).1 = store ∧
    (reload store poolRes loadRes).1.gen = store.gen := by
  rcases poolRes with e | conn
  · exact ⟨rfl, rfl⟩
  · rcases hl : loadRes conn with e | t
    · simp only [reload]
      rw [hl]
      exact ⟨rfl, rfl⟩
    · exfalso
      simp only [reload] at h
      rw [hl] at h
      exact Bool.noConfusion h

/-- Witness for C2: the theorem applied to a failing pool acquisition. -/
theorem reload_failure_preserves_store_witness :
    (reload ⟨0, Tera.default⟩ (.error "failed to get connection")
        (fun _ => .ok Tera.default)).2.isOk = false ∧
    (reload ⟨0, Tera.default⟩ (.error "failed to get connection")
        (fun _ => .ok Tera.default)).1 = ⟨0, Tera.default⟩ :=
  ⟨rfl,
   (reload_failure_preserves_store ⟨0, Tera.default⟩ (.error "failed to get connection")
      (fun _ => .ok Tera.default) rfl).1⟩

lemma reloadLoop_all_failures (msgs : List (Except String Tera)) :
    ∀ store, (∀ m ∈ msgs, ∀ t, m ≠ Except.ok t) → (reloadLoop store msgs).1 = store := by
  induction msgs with
  | nil => intro store _; rfl
  | cons m rest ih =>
      intro store h
      rcases m with me | mt
      · simp only [reloadLoop]
        exact ih store (fun m hm t => h m (List.mem_cons_of_mem _ hm) t)
      · exact absurd rfl (h (Except.ok mt) (List.mem_cons_self _ _) mt)

/-- C6 counterexample: when the filesystem observer cannot be
established, start_template_reloading panics (watcher(..).unwrap())
instead of logging the error and continuing, so the process does
crash. -/
theorem watcher_establishment_panic_cex :
    start_template_reloading (.error "inotify init failed") (.ok ())
      ⟨0, Tera.default⟩ [] = StartOutcome.panicked :=
  rfl

/-- C6 amended: if the watcher cannot be created or the watch on
tera-templates cannot be established, start_template_reloading panics
(crashing that thread, and the process when called from startup). Once
the loop is running it never panics: it processes every received
notification, failed reloads only append a log entry, and if every
reload attempt fails the store still holds the last good catalog. -/
theorem watcher_failure_behavior (e : String) (watchRes : Except String Unit)
    (store : StoreRef) (msgs : List (Except String Tera)) :
    (start_template_reloading (.error e) watchRes store msgs = StartOutcome.panicked) ∧
    (start_template_reloading (.ok ()) (.error e) store msgs = StartOutcome.panicked) ∧
    (start_template_reloading (.ok ()) (.ok ()) store msgs =
       StartOutcome.running (reloadLoop store msgs).1 (reloadLoop store msgs).2) ∧
    ((∀ m ∈ msgs, ∀ t, m ≠ Except.ok t) → (reloadLoop store msgs).1 = store) := by
  exact ⟨rfl, rfl, rfl, reloadLoop_all_failures msgs store⟩

/-- Witness for C6 amended: the theorem applied to a run whose only
reload attempt fails. -/
theorem watcher_failure_behavior_witness :
    (start_template_reloading (.error "watch path removed") (.ok ())
        ⟨0, Tera.default⟩ [Except.error "db down"] = StartOutcome.panicked) ∧
    (∀ m ∈ [Except.error "db down"], ∀ t : Tera, m ≠ Except.ok t) ∧
    (reloadLoop ⟨0, Tera.default⟩ [Except.error "db down"]).1 = ⟨0, Tera.default⟩ :=
  ⟨(watcher_failure_behavior "watch path removed" (.ok ()) ⟨0, Tera.default⟩
      [Except.error "db down"]).1,
   by simp,
   (watcher_failure_behavior "watch path removed" (.ok ()) ⟨0, Tera.default⟩
      [Except.error "db down"]).2.2.2 (by simp)⟩

lemma add_template_files_fail (compile : String → Except String String)
    (files : List (String × Option String)) :
    ∀ t, (∃ f ∈ files, (compile f.1).isOk = false) →
      (add_template_files compile t files).isOk = false := by
  induction files with
  | nil =>
      rintro t ⟨f, hf, _⟩
      cases hf
  | cons p rest ih =>
      rcases p with ⟨path, name⟩
      rintro t ⟨f, hf, hfail⟩
      rcases hcp : compile path with e | body
      · simp only [add_template_files]
        rw [hcp]
        rfl
      · simp only [add_template_files]
        rw [hcp]
        rcases List.mem_cons.mp hf with rfl | hf'
        · rw [hcp] at hfail
          exact Bool.noConfusion hfail
        · exact ih _ ⟨f, hf', hfail⟩

lemma add_template_files_ok_all (compile : String → Except String String)
    (files : List (String × Option String)) :
    ∀ t t', add_template_files compile t files = .ok t' →
      ∀ f ∈ files, (compile f.1).isOk = true := by
  induction files with
  | nil =>
      intro t t' _ f hf
      cases hf
  | cons p rest ih =>
      rcases p with ⟨path, name⟩
      intro t t' hadd f hf
      rcases hcp : compile path with e | body
      · simp only [add_template_files] at hadd
        rw [hcp] at hadd
        exact Except.noConfusion hadd
      · simp only [add_template_files] at hadd
        rw [hcp] at hadd
        rcases List.mem_cons.mp hf with rfl | hf'
        · rw [hcp]
          rfl
        · exact ih _ _ hadd f hf'

lemma add_template_files_ok_exists (compile : String → Except String String)
    (files : List (String × Option String)) :
    ∀ t, (∀ f ∈ files, (compile f.1).isOk = true) →
      ∃ t', add_template_files compile t files = .ok t' ∧ t'.functions = t.functions := by
  induction files with
  | nil =>
      intro t _
      exact ⟨t, rfl, rfl⟩
  | cons p rest ih =>
      rcases p with ⟨path, name⟩
      intro t h
      rcases hcp : compile path with e | body
      · have hh := h (path, name) (List.mem_cons_self _ _)
        rw [hcp] at hh
        exact Bool.noConfusion hh
      · obtain ⟨t', ht', hfn⟩ :=
          ih { t with templates := (name.getD path, body) :: t.templates }
            (fun f hf => h f (List.mem_cons_of_mem _ hf))
        refine ⟨t', ?_, hfn⟩
        simp only [add_template_files]
        rw [hcp]
        exact ht'

/-- C3: if any scanned file fails to compile, load_templates returns an
error and no catalog at all; a catalog is produced only when every
scanned file compiled. -/
theorem load_templates_all_or_nothing (compile : String → Except String String)
    (files : List (String × Option String)) (galert : Except String JsonValue)
    (bv : String) (parse : String → Except String String)
    (q : Except String (List ConfigRow)) :
    ((∃ f ∈ files, (compile f.1).isOk = false) →
       (load_templates compile (.ok files) galert bv parse q).isOk = false) ∧
    (∀ t, load_templates compile (.ok files) galert bv parse q = .ok t →
       ∀ f ∈ files, (compile f.1).isOk = true) := by
  constructor
  · intro hex
    have h := add_template_files_fail compile files Tera.default hex
    simp only [load_templates]
    rcases hadd : add_template_files compile Tera.default files with e | t0
    · rfl
    · rw [hadd] at h
      exact Bool.noConfusion h
  · intro t hload f hf
    simp only [load_templates] at hload
    rcases hadd : add_template_files compile Tera.default files with e | t0
    · rw [hadd] at hload
      exact Except.noConfusion hload
    · exact add_template_files_ok_all compile files _ _ hadd f hf

/-- Witness for C3: the theorem applied to a one-file set whose file
fails to compile. -/
theorem load_templates_all_or_nothing_witness :
    (∃ f ∈ [("nav.html", some "nav.html")],
       ((fun _ => Except.error "unexpected end of block" :
           String → Except String String) f.1).isOk = false) ∧
    (load_templates (fun _ => Except.error "unexpected end of block")
        (.ok [("nav.html", some "nav.html")]) (.ok JsonValue.null) "0.6.0"
        (fun s => .ok s) (.ok [])).isOk = false :=
  ⟨⟨("nav.html", some "nav.html"), by simp, rfl⟩,
   (load_templates_all_or_nothing (fun _ => Except.error "unexpected end of block")
      [("nav.html", some "nav.html")] (.ok JsonValue.null) "0.6.0"
      (fun s => .ok s) (.ok [])).1
     ⟨("nav.html", some "nav.html"), by simp, rfl⟩⟩

/-- C4: when the configuration lookup for the rustc_version key fails
(query error), returns no row, or returns a value that is not a JSON
string, the resolver fails; and whenever the resolver fails the built
catalog registers rustc_resource_suffix as the "???" placeholder and
the build still succeeds (given the rest of the build is healthy) —
a resolver failure is never escalated into a build failure. -/
theorem rustc_resource_suffix_fallback (parse : String → Except String String)
    (e : String) (row : ConfigRow) (rest : List ConfigRow)
    (queryRes : Except String (List ConfigRow))
    (compile : String → Except String String)
    (files : List (String × Option String)) (galert : JsonValue) (bv : String) :
    ((load_rustc_resource_suffix parse (.error e)).isOk = false) ∧
    ((load_rustc_resource_suffix parse (.ok [])).isOk = false) ∧
    (rowStringValue row = none →
       (load_rustc_resource_suffix parse (.ok (row :: rest))).isOk = false) ∧
    ((load_rustc_resource_suffix parse queryRes).isOk = false →
     (∀ f ∈ files, (compile f.1).isOk = true) →
     ∃ t, load_templates compile (.ok files) (.ok galert) bv parse queryRes = .ok t ∧
       t.getFunction "rustc_resource_suffix" =
         some ⟨"rustc_resource_suffix", .str "???"⟩) := by
  refine ⟨rfl, rfl, ?_, ?_⟩
  · intro hrow
    simp only [load_rustc_resource_suffix]
    rw [hrow]
    rfl
  · intro hfail hcomp
    obtain ⟨t0, hadd, hfn⟩ := add_template_files_ok_exists compile files Tera.default hcomp
    have hsfx : unwrapOrQQQ (load_rustc_resource_suffix parse queryRes) = "???" := by
      rcases hq : load_rustc_resource_suffix parse queryRes with e' | s
      · rfl
      · rw [hq] at hfail
        exact Bool.noConfusion hfail
    have hload : load_templates compile (.ok files) (.ok galert) bv parse queryRes =
        .ok (Tera.register_filter (Tera.register_filter (Tera.register_filter
          (ReturnValue.add_function_to
            (ReturnValue.add_function_to
              (ReturnValue.add_function_to t0 "global_alert" galert)
              "docsrs_version" (JsonValue.str bv))
            "rustc_resource_suffix" (JsonValue.str "???"))
          "timeformat") "dbg") "dedent") := by
      simp only [load_templates]
      rw [hadd, hsfx]
    exact ⟨_, hload, rfl⟩

/-- Witness for C4: the theorem applied to a non-string config value
and to an empty result set, with a healthy rest of the build. -/
theorem rustc_resource_suffix_fallback_witness :
    (rowStringValue (some (.ok (JsonValue.num 1))) = none) ∧
    ((load_rustc_resource_suffix (fun s => .ok s) (.ok ([] : List ConfigRow))).isOk = false) ∧
    ((load_rustc_resource_suffix (fun s => .ok s)
        (.ok [some (.ok (JsonValue.num 1))])).isOk = false) ∧
    (∃ t, load_templates (fun _ => .ok "") (.ok []) (.ok JsonValue.null) "0.6.0"
        (fun s => .ok s) (.ok []) = .ok t ∧
      t.getFunction "rustc_resource_suffix" =
        some ⟨"rustc_resource_suffix", .str "???"⟩) :=
  ⟨rfl,
   (rustc_resource_suffix_fallback (fun s => .ok s) "e" none [] (.ok [])
      (fun _ => .ok "") [] JsonValue.null "0.6.0").2.1,
   (rustc_resource_suffix_fallback (fun s => .ok s) "e" (some (.ok (JsonValue.num 1))) []
      (.ok []) (fun _ => .ok "") [] JsonValue.null "0.6.0").2.2.1 rfl,
   (rustc_resource_suffix_fallback (fun s => .ok s) "e" none [] (.ok [])
      (fun _ => .ok "") [] JsonValue.null "0.6.0").2.2.2 rfl (by simp)⟩

lemma storeRun_snaps_mem : ∀ (es : List StoreEvent) (s : SysState) (v : StoreRef),
    v ∈ (storeRun s es).snaps.map Prod.snd →
    v ∈ s.snaps.map Prod.snd ∨ v ∈ histList s es := by
  intro es
  induction es with
  | nil =>
      intro s v hv
      exact Or.inl hv
  | cons e rest ih =>
      intro s v hv
      have hv' : v ∈ (storeRun (storeStep s e) rest).snaps.map Prod.snd := hv
      rcases ih (storeStep s e) v hv' with h | h
      · rcases e with r | c
        · rcases List.mem_map.mp h with ⟨p, hp, rfl⟩
          rcases List.mem_cons.mp hp with rfl | hp'
          · exact Or.inr (List.mem_cons_self _ _)
          · exact Or.inl (List.mem_map.mpr ⟨p, hp', rfl⟩)
        · exact Or.inl h
      · exact Or.inr (List.mem_cons_of_mem _ h)

lemma storeRun_active_no_swap : ∀ (es : List StoreEvent) (s : SysState),
    (∀ e ∈ es, ∀ c, e ≠ StoreEvent.swap c) → (storeRun s es).active = s.active := by
  intro es
  induction es with
  | nil =>
      intro s _
      rfl
  | cons e rest ih =>
      intro s h
      rcases e with r | c
      · exact ih (storeStep s (.load r)) (fun e he c => h e (List.mem_cons_of_mem _ he) c)
      · exact absurd rfl (h (.swap c) (List.mem_cons_self _ _) c)

/-- C1: swap atomicity of the store. A swap leaves every snapshot held
by an in-flight render untouched, so such a render finishes entirely
against its pre-swap catalog; after a swap the active reference is the
new catalog, every later current() (with no further swap) yields only
the new catalog; and, starting from a fresh store, every reference a
render ever holds is one of the complete catalogs that was active at
some point of the run — never a mix and never a catalog mutating
underneath the reader. -/
theorem swap_atomicity (s : SysState) (c : Tera) (r : Nat) (es : List StoreEvent) :
    ((storeStep s (.swap c)).snaps = s.snaps) ∧
    ((storeStep s (.swap c)).active = swapStore s.active c) ∧
    (snapLookup r (storeStep (storeStep s (.swap c)) (.load r)).snaps =
       some (swapStore s.active c)) ∧
    ((∀ e ∈ es, ∀ c2, e ≠ StoreEvent.swap c2) →
       (storeRun (storeStep s (.swap c)) es).active = swapStore s.active c) ∧
    (s.snaps = [] → ∀ v ∈ (storeRun s es).snaps.map Prod.snd, v ∈ histList s es) := by
  refine ⟨rfl, rfl, ?_, ?_, ?_⟩
  · simp [snapLookup, storeStep, List.find?]
  · intro h
    exact storeRun_active_no_swap es (storeStep s (.swap c)) h
  · intro hs v hv
    rcases storeRun_snaps_mem es s v hv with h | h
    · rw [hs] at h
      cases h
    · exact h

/-- Witness for C1: the theorem applied to a concrete interleaving:
a swap followed by a load, starting from a fresh store. -/
theorem swap_atomicity_witness :
    ((∀ e ∈ [StoreEvent.load 1], ∀ c2, e ≠ StoreEvent.swap c2) ∧
     (storeRun (storeStep ⟨⟨0, Tera.default⟩, []⟩ (.swap Tera.default))
        [StoreEvent.load 1]).active = swapStore (⟨0, Tera.default⟩ : StoreRef) Tera.default) ∧
    ((⟨⟨0, Tera.default⟩, []⟩ : SysState).snaps = [] ∧
     ∀ v ∈ (storeRun ⟨⟨0, Tera.default⟩, []⟩ [StoreEvent.load 1]).snaps.map Prod.snd,
       v ∈ histList ⟨⟨0, Tera.default⟩, []⟩ [StoreEvent.load 1]) :=
  ⟨⟨by simp,
    (swap_atomicity ⟨⟨0, Tera.default⟩, []⟩ Tera.default 1 [StoreEvent.load 1]).2.2.2.1
      (by simp)⟩,
   ⟨rfl,
    (swap_atomicity ⟨⟨0, Tera.default⟩, []⟩ Tera.default 1 [StoreEvent.load 1]).2.2.2.2
      rfl⟩⟩

lemma debounce_aux (w : Nat) (t : Nat) (rest : List Nat) :
    (List.Chain' (fun a b => b - a < w) (t :: rest) → debounceFires w (t :: rest) = 1) ∧
    (List.Chain' (fun a b => w < b - a) (t :: rest) →
       debounceFires w (t :: rest) = (t :: rest).length) := by
  induction rest generalizing t with
  | nil => exact ⟨fun _ => rfl, fun _ => rfl⟩
  | cons t2 rest2 ih =>
      constructor
      · intro hch
        obtain ⟨h1, h2⟩ := List.chain'_cons.mp hch
        have hnle : ¬ (w ≤ t2 - t) := by omega
        simp only [debounceFires, if_neg hnle]
        rw [Nat.zero_add]
        exact (ih t2).1 h2
      · intro hch
        obtain ⟨h1, h2⟩ := List.chain'_cons.mp hch
        have hle : w ≤ t2 - t := Nat.le_of_lt h1
        simp only [debounceFires, if_pos hle]
        rw [(ih t2).2 h2]
        simp [List.length_cons]
        omega

/-- C9: debounce coalescing. For a non-empty burst of events whose
consecutive gaps are all smaller than the window, exactly one rebuild
fires; when every consecutive gap exceeds the window, every event fires
its own rebuild. -/
theorem debounce_coalescing (w : Nat) (ts : List Nat) (hne : ts ≠ []) :
    (List.Chain' (fun a b => b - a < w) ts → debounceFires w ts = 1) ∧
    (List.Chain' (fun a b => w < b - a) ts → debounceFires w ts = ts.length) := by
  rcases ts with _ | ⟨t, rest⟩
  · exact absurd rfl hne
  · exact debounce_aux w t rest

/-- Witness for C9: three events one second apart coalesce into one
rebuild under the two-second window; three events ten seconds apart
fire three rebuilds. -/
theorem debounce_coalescing_witness :
    (([0, 1, 2] : List Nat) ≠ [] ∧
     List.Chain' (fun a b => b - a < 2) [0, 1, 2] ∧
     debounceFires 2 [0, 1, 2] = 1) ∧
    (([0, 10, 20] : List Nat) ≠ [] ∧
     List.Chain' (fun a b => 2 < b - a) [0, 10, 20] ∧
     debounceFires 2 [0, 10, 20] = 3) :=
  ⟨⟨by simp, by simp [List.chain'_cons], (debounce_coalescing 2 [0, 1, 2] (by simp)).1
      (by simp [List.chain'_cons])⟩,
   ⟨by simp, by simp [List.chain'_cons], (debounce_coalescing 2 [0, 10, 20] (by simp)).2
      (by simp [List.chain'_cons])⟩⟩
